import Mathlib

/-!
# Verification of the claw-router routing gateway

A shallow embedding of the claw-router backend (`src/backend/src/{cache,
scorer, router, state, handlers, config}.rs`) together with proofs of the
behavioural claims about it.  Rust `f64` cost and score values are modelled
as `ℚ` (every comparison the code performs on them is on exact decimal
literals or sums thereof, never on NaN, so the ordering facts used here
coincide); Rust `HashMap`s are modelled as association lists with unique
keys; file-system state is modelled as an association list from paths to
file contents.
-/

namespace ClawRouter

/-! ## Bytes, hex and SHA-256

`cache.rs` and `handlers.rs` hash with `sha2::Sha256` and render digests
with `format!("{:x}", …)`.  We embed SHA-256 (FIPS 180-4) directly over
byte lists so that digests are concrete computable values. -/

/-- Concatenated map over a list (kept explicit for kernel-friendly
reduction). -/
def concatMap (f : α → List β) : List α → List β
  | [] => []
  | a :: l => f a ++ concatMap f l

/-- UTF-8 encoding of a single character. -/
def utf8EncodeChar (c : Char) : List Nat :=
  let n := c.toNat
  if n < 128 then [n]
  else if n < 2048 then [192 + n / 64, 128 + n % 64]
  else if n < 65536 then [224 + n / 4096, 128 + (n / 64) % 64, 128 + n % 64]
  else [240 + n / 262144, 128 + (n / 4096) % 64, 128 + (n / 64) % 64, 128 + n % 64]

/-- UTF-8 bytes of a string, as Rust's `str::as_bytes`. -/
def strBytes (s : String) : List Nat :=
  concatMap utf8EncodeChar s.data

/-- Addition modulo 2³². -/
def add32 (a b : Nat) : Nat := (a + b) % 4294967296

/-- Rotate a 32-bit word right by `n` bits. -/
def rotr32 (n x : Nat) : Nat := ((x >>> n) ||| (x <<< (32 - n))) % 4294967296

/-- SHA-256 `Ch` function. -/
def shaCh (x y z : Nat) : Nat := (x &&& y) ^^^ ((x ^^^ 4294967295) &&& z)

/-- SHA-256 `Maj` function. -/
def shaMaj (x y z : Nat) : Nat := (x &&& y) ^^^ (x &&& z) ^^^ (y &&& z)

/-- SHA-256 Σ₀. -/
def bigSigma0 (x : Nat) : Nat := rotr32 2 x ^^^ rotr32 13 x ^^^ rotr32 22 x

/-- SHA-256 Σ₁. -/
def bigSigma1 (x : Nat) : Nat := rotr32 6 x ^^^ rotr32 11 x ^^^ rotr32 25 x

/-- SHA-256 σ₀. -/
def smallSigma0 (x : Nat) : Nat := rotr32 7 x ^^^ rotr32 18 x ^^^ (x >>> 3)

/-- SHA-256 σ₁. -/
def smallSigma1 (x : Nat) : Nat := rotr32 17 x ^^^ rotr32 19 x ^^^ (x >>> 10)

/-- The 64 SHA-256 round constants (FIPS 180-4 §4.2.2, written in
decimal). -/
def shaK : List Nat :=
  [1116352408, 1899447441, 3049323471, 3921009573, 961987163,
   1508970993, 2453635748, 2870763221, 3624381080, 310598401,
   607225278, 1426881987, 1925078388, 2162078206, 2614888103,
   3248222580, 3835390401, 4022224774, 264347078, 604807628,
   770255983, 1249150122, 1555081692, 1996064986, 2554220882,
   2821834349, 2952996808, 3210313671, 3336571891, 3584528711,
   113926993, 338241895, 666307205, 773529912, 1294757372,
   1396182291, 1695183700, 1986661051, 2177026350, 2456956037,
   2730485921, 2820302411, 3259730800, 3345764771, 3516065817,
   3600352804, 4094571909, 275423344, 430227734, 506948616,
   659060556, 883997877, 958139571, 1322822218, 1537002063,
   1747873779, 1955562222, 2024104815, 2227730452, 2361852424,
   2428436474, 2756734187, 3204031479, 3329325298]

/-- SHA-256 working state (eight 32-bit words). -/
structure ShaState where
  a : Nat
  b : Nat
  c : Nat
  d : Nat
  e : Nat
  f : Nat
  g : Nat
  h : Nat
deriving DecidableEq, Repr

/-- Initial SHA-256 hash value (FIPS 180-4 §5.3.3, in decimal). -/
def shaInit : ShaState :=
  ⟨1779033703, 3144134277, 1013904242, 2773480762,
   1359893119, 2600822924, 528734635, 1541459225⟩

/-- Pack big-endian groups of four bytes into 32-bit words. -/
def bytesToWords : List Nat → List Nat
  | b0 :: b1 :: b2 :: b3 :: rest =>
      (b0 * 16777216 + b1 * 65536 + b2 * 256 + b3) :: bytesToWords rest
  | _ => []

/-- One step of the message-schedule extension. -/
def scheduleStep (w : List Nat) : List Nat :=
  w ++ [add32 (add32 (smallSigma1 (w.getD (w.length - 2) 0)) (w.getD (w.length - 7) 0))
             (add32 (smallSigma0 (w.getD (w.length - 15) 0)) (w.getD (w.length - 16) 0))]

/-- Iterate the schedule extension `n` times. -/
def buildSchedule : Nat → List Nat → List Nat
  | 0, w => w
  | n + 1, w => buildSchedule n (scheduleStep w)

/-- One SHA-256 round, consuming a (round-constant, schedule-word) pair. -/
def shaRound (s : ShaState) (kw : Nat × Nat) : ShaState :=
  let t1 := add32 s.h (add32 (bigSigma1 s.e) (add32 (shaCh s.e s.f s.g) (add32 kw.1 kw.2)))
  let t2 := add32 (bigSigma0 s.a) (shaMaj s.a s.b s.c)
  ⟨add32 t1 t2, s.a, s.b, s.c, add32 s.d t1, s.e, s.f, s.g⟩

/-- Compress one 64-byte block into the running state. -/
def shaCompress (s : ShaState) (block : List Nat) : ShaState :=
  let w := buildSchedule 48 (bytesToWords block)
  let t := (shaK.zip w).foldl shaRound s
  ⟨add32 s.a t.a, add32 s.b t.b, add32 s.c t.c, add32 s.d t.d,
   add32 s.e t.e, add32 s.f t.f, add32 s.g t.g, add32 s.h t.h⟩

/-- Compress `n` consecutive 64-byte blocks. -/
def shaBlocks : Nat → ShaState → List Nat → ShaState
  | 0, s, _ => s
  | n + 1, s, l => shaBlocks n (shaCompress s (l.take 64)) (l.drop 64)

/-- Big-endian bytes of a number, `len` bytes wide. -/
def natToBytesBE (n len : Nat) : List Nat :=
  (List.range len).map fun i => (n >>> (8 * (len - 1 - i))) % 256

/-- SHA-256 padding: `0x80`, zeros to 56 mod 64, then the 64-bit bit length. -/
def shaPad (msg : List Nat) : List Nat :=
  let r := (msg.length + 1) % 64
  msg ++ (128 :: List.replicate ((120 - r) % 64) 0) ++ natToBytesBE (msg.length * 8) 8

/-- SHA-256 digest (32 bytes) of a byte list. -/
def sha256 (msg : List Nat) : List Nat :=
  let p := shaPad msg
  let s := shaBlocks (p.length / 64) shaInit p
  natToBytesBE s.a 4 ++ natToBytesBE s.b 4 ++ natToBytesBE s.c 4 ++ natToBytesBE s.d 4 ++
  natToBytesBE s.e 4 ++ natToBytesBE s.f 4 ++ natToBytesBE s.g 4 ++ natToBytesBE s.h 4

/-- Lowercase hexadecimal digit. -/
def hexDigit (n : Nat) : Char :=
  if n < 10 then Char.ofNat (48 + n) else Char.ofNat (87 + n)

/-- Lowercase hex rendering of a byte list, as `format!("{:x}", digest)`. -/
def hexOfBytes (l : List Nat) : String :=
  String.mk (concatMap (fun b => [hexDigit (b / 16), hexDigit (b % 16)]) l)

/-- Lowercase hex SHA-256 of a string's UTF-8 bytes. -/
def sha256hex (s : String) : String := hexOfBytes (sha256 (strBytes s))

/-! ## JSON values

`serde_json::Value` is modelled by `Json`.  Numbers carry their source
text (the claims never inspect numeric values, only pass them through
serialization, which for a fixed number is a fixed string). -/

inductive Json where
  | null
  | bool (b : Bool)
  | num (text : String)
  | str (s : String)
  | arr (items : List Json)
  | obj (fields : List (String × Json))

/-- Association-list lookup, modelling `HashMap::get` / `Map::get`
(keys are unique in the maps the code builds). -/
def alookup : List (String × α) → String → Option α
  | [], _ => none
  | (k, v) :: l, key => if k = key then some v else alookup l key

/-- `Value::get(key)`: field of an object, else nothing. -/
def Json.get : Json → String → Option Json
  | .obj fields, key => alookup fields key
  | _, _ => none

/-- `Value::as_str`. -/
def Json.asStr : Json → Option String
  | .str s => some s
  | _ => none

/-- `Value::as_array`. -/
def Json.asArr : Json → Option (List Json)
  | .arr items => some items
  | _ => none

/-- JSON string escaping as `serde_json` renders it. -/
def escapeChar (c : Char) : List Char :=
  if c = '"' then ['\\', '"']
  else if c = '\\' then ['\\', '\\']
  else if c.toNat = 8 then ['\\', 'b']
  else if c.toNat = 9 then ['\\', 't']
  else if c.toNat = 10 then ['\\', 'n']
  else if c.toNat = 12 then ['\\', 'f']
  else if c.toNat = 13 then ['\\', 'r']
  else if c.toNat < 32 then ['\\', 'u', '0', '0', hexDigit (c.toNat / 16), hexDigit (c.toNat % 16)]
  else [c]

/-- Escape a whole string. -/
def escapeString (s : String) : String := String.mk (concatMap escapeChar s.data)

mutual

/-- Compact serialization, as `serde_json::to_string`. -/
def serializeJson : Json → String
  | .null => "null"
  | .bool true => "true"
  | .bool false => "false"
  | .num t => t
  | .str s => "\"" ++ escapeString s ++ "\""
  | .arr items => "[" ++ serializeItems items ++ "]"
  | .obj fields => "\x7b" ++ serializeFields fields ++ "\x7d"

/-- Comma-separated serialization of array items. -/
def serializeItems : List Json → String
  | [] => ""
  | [x] => serializeJson x
  | x :: y :: xs => serializeJson x ++ "," ++ serializeItems (y :: xs)

/-- Comma-separated serialization of object fields. -/
def serializeFields : List (String × Json) → String
  | [] => ""
  | [(k, v)] => "\"" ++ escapeString k ++ "\":" ++ serializeJson v
  | (k, v) :: f :: xs => "\"" ++ escapeString k ++ "\":" ++ serializeJson v ++ "," ++ serializeFields (f :: xs)

end

/-! ## Response cache (`cache.rs`)

The on-disk state is an association list from paths to file contents;
a file either parses as a `CacheEntry` or is `corrupt` (unreadable
bytes and unparsable bytes behave identically in `get`). -/

structure CacheConfig where
  enabled : Bool
  ttl_seconds : Nat
  cache_dir : String
deriving DecidableEq

/-- `CacheConfig::default()`. -/
def cacheConfigDefault : CacheConfig := ⟨false, 3600, "cache"⟩

structure CacheEntry where
  cached_at : Nat
  model : String
  response_body : List Nat
deriving DecidableEq

/-- The nine extra parameters recognized by `cache_key`. -/
def recognizedCacheKeys : List String :=
  ["temperature", "top_p", "max_tokens", "max_completion_tokens", "tools",
   "tool_choice", "stop", "response_format", "seed"]

/-- Sort strings ascending (`Vec::sort` on `&String` keys). -/
def sortStrings (l : List String) : List String :=
  List.insertionSort (· ≤ ·) l

/-- The byte stream fed to the hasher in `cache_key`: model bytes, the
serialized messages array, then for each recognized key present (sorted
ascending) the key bytes and its value's serialization.  The `.getD
Json.null` models the infallible `extra[k]` indexing: every key in the
list comes from `extra` itself. -/
def cacheKeyStream (model : String) (messages : List Json)
    (extra : List (String × Json)) : List Nat :=
  let keys := sortStrings ((extra.map Prod.fst).filter (· ∈ recognizedCacheKeys))
  strBytes model ++ strBytes (serializeJson (Json.arr messages)) ++
    concatMap (fun k => strBytes k ++ strBytes (serializeJson ((alookup extra k).getD Json.null))) keys

/-- `cache_key`: lowercase hex SHA-256 of the stream. -/
def cacheKey (model : String) (messages : List Json)
    (extra : List (String × Json)) : String :=
  hexOfBytes (sha256 (cacheKeyStream model messages extra))

/-- `entry_path`: `<cache_dir>/<first-2-chars>/<key>.json` (the Rust code
slices the first `2.min(len)` bytes; keys are ASCII hex so byte and char
slicing agree, and `String.take` already truncates short strings). -/
def entryPath (cache_dir key : String) : String :=
  cache_dir ++ "/" ++ key.take 2 ++ "/" ++ key ++ ".json"

inductive FileContent where
  | entry (e : CacheEntry)
  | corrupt
deriving DecidableEq

/-- `fs::remove_file`. -/
def fsRemove : List (String × FileContent) → String → List (String × FileContent)
  | [], _ => []
  | (k, v) :: l, key => if k = key then fsRemove l key else (k, v) :: fsRemove l key

/-- `cache::get`, returning the optional body and the resulting file
system.  `now - e.cached_at` is `u64::saturating_sub`, which is exactly
truncated `Nat` subtraction. -/
def cacheGet (config : CacheConfig) (fs : List (String × FileContent))
    (now : Nat) (key : String) : Option (List Nat) × List (String × FileContent) :=
  if !config.enabled then (none, fs)
  else
    let path := entryPath config.cache_dir key
    match alookup fs path with
    | none => (none, fs)
    | some .corrupt => (none, fs)
    | some (.entry e) =>
        if now - e.cached_at > config.ttl_seconds then (none, fsRemove fs path)
        else (some e.response_body, fs)

/-! ## Complexity scorer (`scorer.rs`)

Dimension scores and weights are exact decimal literals in the source;
they are modelled in `ℚ`.  The `confidence` output (a transcendental
`f64` sigmoid) is not modelled: no claim mentions it and it feeds back
into nothing. -/

inductive ComplexityTier where
  | Simple
  | Medium
  | Complex
  | Reasoning
deriving DecidableEq, Repr

/-- The `as u8` discriminant used by the token-count override. -/
def tierRank : ComplexityTier → Nat
  | .Simple => 0
  | .Medium => 1
  | .Complex => 2
  | .Reasoning => 3

structure ScorerWeights where
  token_count : ℚ
  code_presence : ℚ
  reasoning_markers : ℚ
  technical_terms : ℚ
  creative_markers : ℚ
  simple_indicators : ℚ
  multi_step_patterns : ℚ
  question_complexity : ℚ
  imperative_verbs : ℚ
  constraint_count : ℚ
  output_format : ℚ
  reference_complexity : ℚ
  negation_complexity : ℚ
  domain_specificity : ℚ
  agentic_task : ℚ
deriving DecidableEq

structure TierBoundaries where
  simple_upper : ℚ
  medium_upper : ℚ
  complex_upper : ℚ
deriving DecidableEq

structure TokenThresholds where
  short_upper : Nat
  long_lower : Nat
deriving DecidableEq

structure ScorerConfig where
  enabled : Bool
  weights : ScorerWeights
  tier_boundaries : TierBoundaries
  token_thresholds : TokenThresholds
  confidence_steepness : ℚ
  confidence_threshold : ℚ
  max_tokens_force_complex : Nat
deriving DecidableEq

/-- `ScorerWeights::default()`. -/
def scorerWeightsDefault : ScorerWeights :=
  ⟨0.08, 0.15, 0.18, 0.10, 0.05, 0.02, 0.12, 0.05, 0.03, 0.04, 0.03, 0.02, 0.01, 0.02, 0.04⟩

/-- `TierBoundaries::default()`. -/
def tierBoundariesDefault : TierBoundaries := ⟨0.0, 0.3, 0.5⟩

/-- `TokenThresholds::default()`. -/
def tokenThresholdsDefault : TokenThresholds := ⟨500, 3000⟩

/-- `ScorerConfig::default()`. -/
def scorerConfigDefault : ScorerConfig :=
  ⟨true, scorerWeightsDefault, tierBoundariesDefault, tokenThresholdsDefault, 12.0, 0.7, 100000⟩

structure DimensionScores where
  token_count : ℚ
  code_presence : ℚ
  reasoning_markers : ℚ
  technical_terms : ℚ
  creative_markers : ℚ
  simple_indicators : ℚ
  multi_step_patterns : ℚ
  question_complexity : ℚ
  imperative_verbs : ℚ
  constraint_count : ℚ
  output_format : ℚ
  reference_complexity : ℚ
  negation_complexity : ℚ
  domain_specificity : ℚ
  agentic_task : ℚ
deriving DecidableEq

structure ScoringResult where
  tier : ComplexityTier
  raw_score : ℚ
  signals : List String
  override_applied : Option String
  agentic_keyword_count : Nat
deriving DecidableEq

def CODE_KEYWORDS : List String :=
  ["function", "class", "import", "const", "let", "var", "return",
   "async", "await", "def ", "print(", "console.log", "```",
   "pub fn", "impl ", "struct ", "enum ", "SELECT", "INSERT",
   "UPDATE", "DELETE", "CREATE TABLE"]

def REASONING_KEYWORDS : List String :=
  ["prove", "theorem", "derive", "step by step", "chain of thought",
   "formally", "mathematical", "proof", "logically", "contradiction",
   "induction", "hypothesis", "therefore", "axiom", "lemma",
   "corollary", "deduce", "implies"]

def TECHNICAL_KEYWORDS : List String :=
  ["algorithm", "optimize", "architecture", "distributed", "kubernetes",
   "microservice", "database", "infrastructure", "concurrent", "latency",
   "throughput", "scalable", "middleware", "authentication",
   "authorization", "encryption"]

def CREATIVE_KEYWORDS : List String :=
  ["story", "poem", "compose", "brainstorm", "creative", "imagine",
   "write a", "fiction", "narrative", "character", "plot", "metaphor"]

def SIMPLE_KEYWORDS : List String :=
  ["what is", "define", "translate", "hello", "yes or no",
   "capital of", "how old", "who is", "when was", "meaning of",
   "true or false"]

def IMPERATIVE_KEYWORDS : List String :=
  ["build", "create", "implement", "design", "develop", "construct",
   "generate", "deploy", "configure", "set up", "refactor", "migrate",
   "integrate"]

def CONSTRAINT_KEYWORDS : List String :=
  ["under", "at most", "at least", "within", "no more than",
   "o(", "maximum", "minimum", "limit", "budget", "constraint"]

def OUTPUT_FORMAT_KEYWORDS : List String :=
  ["json", "yaml", "xml", "table", "csv", "markdown", "schema",
   "format as", "structured", "output as"]

def REFERENCE_KEYWORDS : List String :=
  ["above", "below", "previous", "following", "the docs", "the api",
   "the code", "earlier", "attached", "mentioned"]

def NEGATION_KEYWORDS : List String :=
  ["don't", "do not", "avoid", "never", "without", "except",
   "exclude", "no longer", "must not", "shouldn't"]

def DOMAIN_KEYWORDS : List String :=
  ["quantum", "fpga", "vlsi", "risc-v", "asic", "photonics",
   "genomics", "proteomics", "topological", "homomorphic",
   "zero-knowledge", "lattice-based"]

def AGENTIC_KEYWORDS : List String :=
  ["read file", "read the file", "look at", "check the", "open the",
   "edit", "modify", "update the", "change the", "write to",
   "create file", "execute", "deploy", "install", "npm", "pip",
   "compile", "after that", "and also", "once done", "step 1",
   "step 2", "fix", "debug", "until it works", "keep trying",
   "iterate", "make sure", "verify", "confirm"]

/-- Text parts taken from an array-style content: only parts whose
`type` is `"text"` contribute their `text` string. -/
def partTexts : List Json → List String
  | [] => []
  | item :: rest =>
      if (item.get "type").bind Json.asStr = some "text" then
        match (item.get "text").bind Json.asStr with
        | some t => t :: partTexts rest
        | none => partTexts rest
      else partTexts rest

/-- The per-message collection loop of `extract_text`. -/
def userTextParts : List Json → List String
  | [] => []
  | msg :: rest =>
      let role := ((msg.get "role").bind Json.asStr).getD ""
      if role ≠ "user" then userTextParts rest
      else
        match msg.get "content" with
        | some (.str s) => s :: userTextParts rest
        | some (.arr items) => partTexts items ++ userTextParts rest
        | _ => userTextParts rest

/-- ASCII lowercasing of one character. -/
def lowerChar (c : Char) : Char :=
  if 65 ≤ c.toNat ∧ c.toNat ≤ 90 then Char.ofNat (c.toNat + 32) else c

/-- Characterwise ASCII lowercasing; Rust's `str::to_lowercase` agrees
on the ASCII range (the scorer's keyword sets are English/ASCII only). -/
def asciiLower (s : String) : String := String.mk (s.data.map lowerChar)

/-- `extract_text`: user-message text joined by newlines, lowercased
once. -/
def extractText (messages : List Json) : String :=
  asciiLower (String.intercalate "\n" (userTextParts messages))

/-- `estimate_token_count`: UTF-8 byte length / 4 (`str::len` counts
bytes). -/
def estimateTokenCount (text : String) : Nat := text.utf8ByteSize / 4

/-- `str::contains`: substring occurrence (byte search and character
search agree on valid UTF-8). -/
def strContains (s pat : String) : Bool :=
  (List.range (s.data.length + 1)).any fun i => pat.data.isPrefixOf (s.data.drop i)

/-- `score_token_count`. -/
def scoreTokenCount (text : String) (t : TokenThresholds) : ℚ :=
  let tokens := estimateTokenCount text
  if tokens < t.short_upper then -1.0
  else if tokens > t.long_lower then 1.0
  else 0.0

/-- The keyword count of `score_keyword_match` / `score_agentic_task`. -/
def keywordCount (text : String) (keywords : List String) : Nat :=
  (keywords.filter fun kw => strContains text kw).length

/-- `score_keyword_match`: count-to-score mapping plus the emitted
signal. -/
def scoreKeywordMatch (text : String) (keywords : List String)
    (signalName : String) : ℚ × List String :=
  let count := keywordCount text keywords
  (match count with
   | 0 => (0.0 : ℚ)
   | 1 => 0.3
   | 2 => 0.6
   | _ => 1.0,
   if count > 0 then [signalName ++ ":" ++ toString count] else [])

/-- ASCII word character (`regex` `\w`, restricted to the ASCII range
that the lowercased English keyword text exercises). -/
def isWordChar (c : Char) : Bool := c.isAlphanum || c = '_'

/-- ASCII whitespace (`regex` `\s` on the ASCII range). -/
def isWsChar (c : Char) : Bool :=
  c = ' ' || c.toNat = 9 || c.toNat = 10 || c.toNat = 11 || c.toNat = 12 || c.toNat = 13

/-- Literal match at a position. -/
def prefixAt (cs : List Char) (i : Nat) (pat : List Char) : Bool :=
  pat.isPrefixOf (cs.drop i)

/-- Word boundary with a word character on the left: position `i` is the
end of text or a non-word character. -/
def boundaryAt (cs : List Char) (i : Nat) : Bool :=
  decide (cs.length ≤ i) || !isWordChar (cs.getD i ' ')

/-- Word boundary with a word character on the right: position `j` is the
start or preceded by a non-word character. -/
def boundaryBefore (cs : List Char) (j : Nat) : Bool :=
  decide (j = 0) || !isWordChar (cs.getD (j - 1) ' ')

/-- No newline in `cs[a..b)` (regex `.` does not cross newlines). -/
def noNewline (cs : List Char) (a b : Nat) : Bool :=
  ((cs.drop a).take (b - a)).all fun c => c.toNat ≠ 10

/-- Branch `first\b.*\bthen\b` of the multi-step regex. -/
def multiStepAlt1 (cs : List Char) : Bool :=
  (List.range cs.length).any fun i =>
    prefixAt cs i ['f', 'i', 'r', 's', 't'] && boundaryAt cs (i + 5) &&
    ((List.range cs.length).any fun j =>
      decide (i + 5 ≤ j) && noNewline cs (i + 5) j && boundaryBefore cs j &&
      prefixAt cs j ['t', 'h', 'e', 'n'] && boundaryAt cs (j + 4))

/-- Branch `step\s+\d` of the multi-step regex. -/
def multiStepAlt2 (cs : List Char) : Bool :=
  (List.range cs.length).any fun i =>
    prefixAt cs i ['s', 't', 'e', 'p'] &&
    ((List.range cs.length).any fun m =>
      ((cs.drop (i + 4)).take (m + 1)).all isWsChar &&
      decide (i + 4 + (m + 1) < cs.length) &&
      (cs.getD (i + 4 + (m + 1)) ' ').isDigit)

/-- Branch `1\.\s.*2\.\s` of the multi-step regex. -/
def multiStepAlt3 (cs : List Char) : Bool :=
  (List.range cs.length).any fun i =>
    prefixAt cs i ['1', '.'] && isWsChar (cs.getD (i + 2) 'x') &&
    decide (i + 2 < cs.length) &&
    ((List.range cs.length).any fun j =>
      decide (i + 3 ≤ j) && noNewline cs (i + 3) j &&
      prefixAt cs j ['2', '.'] && isWsChar (cs.getD (j + 2) 'x') &&
      decide (j + 2 < cs.length))

/-- `MULTI_STEP_RE.is_match`: the case-insensitive regex
`(first\b.*\bthen\b|step\s+\d|1\.\s.*2\.\s)`, specialized to the
lowercased text the scorer feeds it. -/
def multiStepMatch (text : String) : Bool :=
  multiStepAlt1 text.data || multiStepAlt2 text.data || multiStepAlt3 text.data

/-- `score_multi_step`. -/
def scoreMultiStep (text : String) : ℚ × List String :=
  if multiStepMatch text then (0.5, ["multi_step"]) else (0.0, [])

/-- `score_question_complexity`. -/
def scoreQuestionComplexity (text : String) : ℚ × List String :=
  let count := (text.data.filter (· = '?')).length
  if count > 3 then (0.5, ["questions:" ++ toString count]) else (0.0, [])

/-- `score_agentic_task`: tiered score plus the raw count. -/
def scoreAgenticTask (text : String) (keywords : List String) :
    (ℚ × Nat) × List String :=
  let count := keywordCount text keywords
  ((match count with
    | 0 => (0.0 : ℚ)
    | 1 => 0.2
    | 2 => 0.2
    | 3 => 0.6
    | _ => 1.0,
    count),
   if count > 0 then ["agentic:" ++ toString count] else [])

/-- `compute_weighted_score` (simple_indicators is subtracted). -/
def computeWeightedScore (d : DimensionScores) (w : ScorerWeights) : ℚ :=
  d.token_count * w.token_count
    + d.code_presence * w.code_presence
    + d.reasoning_markers * w.reasoning_markers
    + d.technical_terms * w.technical_terms
    + d.creative_markers * w.creative_markers
    - d.simple_indicators * w.simple_indicators
    + d.multi_step_patterns * w.multi_step_patterns
    + d.question_complexity * w.question_complexity
    + d.imperative_verbs * w.imperative_verbs
    + d.constraint_count * w.constraint_count
    + d.output_format * w.output_format
    + d.reference_complexity * w.reference_complexity
    + d.negation_complexity * w.negation_complexity
    + d.domain_specificity * w.domain_specificity
    + d.agentic_task * w.agentic_task

/-- `classify_tier`. -/
def classifyTier (score : ℚ) (boundaries : TierBoundaries) : ComplexityTier :=
  if score < boundaries.simple_upper then .Simple
  else if score < boundaries.medium_upper then .Medium
  else if score < boundaries.complex_upper then .Complex
  else .Reasoning

/-- `Scorer::score`. -/
def scorerScore (messages : List Json) (config : ScorerConfig) : ScoringResult :=
  let text := extractText messages
  let estimatedTokens := estimateTokenCount text
  let agentic := scoreAgenticTask text AGENTIC_KEYWORDS
  let code := scoreKeywordMatch text CODE_KEYWORDS "code"
  let reasoning := scoreKeywordMatch text REASONING_KEYWORDS "reasoning"
  let technical := scoreKeywordMatch text TECHNICAL_KEYWORDS "technical"
  let creative := scoreKeywordMatch text CREATIVE_KEYWORDS "creative"
  let simple := scoreKeywordMatch text SIMPLE_KEYWORDS "simple"
  let multiStep := scoreMultiStep text
  let question := scoreQuestionComplexity text
  let imperative := scoreKeywordMatch text IMPERATIVE_KEYWORDS "imperative"
  let constraint := scoreKeywordMatch text CONSTRAINT_KEYWORDS "constraint"
  let outputFormat := scoreKeywordMatch text OUTPUT_FORMAT_KEYWORDS "output_format"
  let reference := scoreKeywordMatch text REFERENCE_KEYWORDS "reference"
  let negation := scoreKeywordMatch text NEGATION_KEYWORDS "negation"
  let domain := scoreKeywordMatch text DOMAIN_KEYWORDS "domain"
  let dimensions : DimensionScores :=
    ⟨scoreTokenCount text config.token_thresholds, code.1, reasoning.1, technical.1,
     creative.1, simple.1, multiStep.1, question.1, imperative.1, constraint.1,
     outputFormat.1, reference.1, negation.1, domain.1, agentic.1.1⟩
  let signals :=
    agentic.2 ++ code.2 ++ reasoning.2 ++ technical.2 ++ creative.2 ++ simple.2 ++
    multiStep.2 ++ question.2 ++ imperative.2 ++ constraint.2 ++ outputFormat.2 ++
    reference.2 ++ negation.2 ++ domain.2
  let rawScore := computeWeightedScore dimensions config.weights
  let tier0 := classifyTier rawScore config.tier_boundaries
  let r1 : ComplexityTier × Option String :=
    if estimatedTokens > config.max_tokens_force_complex ∧ tierRank tier0 < tierRank .Complex
    then (.Complex, some "token_count_force_complex")
    else (tier0, none)
  let r2 : ComplexityTier × Option String :=
    if dimensions.output_format > 0 ∧ r1.1 = .Simple
    then (.Medium, some "structured_output_min_medium")
    else r1
  let r3 : ComplexityTier × Option String :=
    if dimensions.reasoning_markers ≥ 0.6
    then (.Reasoning, some "reasoning_markers_force")
    else r2
  ⟨r3.1, rawScore, signals, r3.2, agentic.1.2⟩

/-! ## Configuration model (`config.rs`) and router (`router.rs`)

`f64` model costs are modelled in `ℚ`: the comparator only ever calls
`partial_cmp` on them, configs hold finite decimal literals (JSON cannot
encode NaN), and the `unwrap_or(Equal)` NaN branch is unreachable.  The
`f64::MAX` cost sentinel for a provider lacking the effective model
becomes the top element `none` of `Option ℚ`, and the `usize::MAX` tier
position sentinel becomes `effective_tiers.length` (every found index is
smaller, so all comparisons agree). -/

inductive ProviderType where
  | OpenAI
  | Anthropic
  | Google
  | DeepSeek
  | XAI
  | CustomOpenAI
deriving DecidableEq

inductive Tier where
  | Subscription
  | Cheap
  | Free
  | PayPerRequest
deriving DecidableEq

structure Model where
  id : String
  name : String
  input_cost_per_1m : ℚ
  output_cost_per_1m : ℚ
  context_window : Nat
  supports_vision : Bool
  supports_function_calling : Bool
deriving DecidableEq

structure Provider where
  id : String
  name : String
  provider_type : ProviderType
  api_key : Option String
  endpoint : Option String
  tier : Tier
  enabled : Bool
  priority : Nat
  models : List Model
deriving DecidableEq

structure ModelMapping where
  model_id : String
  provider_id : String
deriving DecidableEq

structure RoutingProfile where
  name : String
  description : String
  allowed_tiers : List Tier
  model_mapping : List (String × ModelMapping)
  agentic_model_mapping : List (String × ModelMapping)
deriving DecidableEq

structure SessionConfig where
  enabled : Bool
  ttl_seconds : Nat
deriving DecidableEq

/-- `SessionConfig::default()`. -/
def sessionConfigDefault : SessionConfig := ⟨false, 3600⟩

structure Config where
  providers : List Provider
  profiles : List RoutingProfile
  active_profile : String
  scorer : Option ScorerConfig
  cache : Option CacheConfig
  agentic_mode : Bool
  session : Option SessionConfig
deriving DecidableEq

/-- `default_provider_tiers_for_complexity`. -/
def defaultProviderTiersForComplexity : ComplexityTier → List Tier
  | .Simple => [.Free, .Cheap]
  | .Medium => [.Cheap, .Free, .PayPerRequest]
  | .Complex => [.Subscription, .Cheap, .PayPerRequest]
  | .Reasoning => [.Subscription, .PayPerRequest]

/-- The tier key strings of `route_request_with_profile` /
`resolve_model_id_with_profile`. -/
def tierKey : ComplexityTier → String
  | .Simple => "simple"
  | .Medium => "medium"
  | .Complex => "complex"
  | .Reasoning => "reasoning"

/-- `Router::parse_router_model`. -/
def parseRouterModel (model_id : String) : Option String :=
  if "router/".isPrefixOf model_id then some (model_id.drop 7) else none

/-- Step 1 of `route_request_with_profile`: the profile by name, else
`profiles[0]`; `none` models the index panic on an empty profile list. -/
def selectedProfile (config : Config) (profile_override : Option String) :
    Option RoutingProfile :=
  let profile_name := profile_override.getD config.active_profile
  match config.profiles.find? (fun p => p.name == profile_name) with
  | some p => some p
  | none => config.profiles.head?

/-- The mapping source selected in step 2. -/
def mappingSource (profile : RoutingProfile) (use_agentic : Bool) :
    List (String × ModelMapping) :=
  if use_agentic && !profile.agentic_model_mapping.isEmpty then
    profile.agentic_model_mapping
  else
    profile.model_mapping

/-- Step 2–3: the effective model id for a profile. -/
def profileEffectiveModelId (profile : RoutingProfile) (model_id : String)
    (complexity : Option ComplexityTier) (use_agentic : Bool) : String :=
  match complexity with
  | some c =>
      match alookup (mappingSource profile use_agentic) (tierKey c) with
      | some mapping => if !mapping.model_id.isEmpty then mapping.model_id else model_id
      | none => model_id
  | none => model_id

/-- Step 3: the effective allowed tiers for a profile. -/
def profileEffectiveTiers (profile : RoutingProfile)
    (complexity : Option ComplexityTier) : List Tier :=
  match complexity with
  | some c =>
      let complexity_tiers := defaultProviderTiersForComplexity c
      let intersection := profile.allowed_tiers.filter (fun t => t ∈ complexity_tiers)
      if intersection.isEmpty then profile.allowed_tiers else intersection
  | none => profile.allowed_tiers

/-- Step 4: the provider pinned by a mapping, when it names one. -/
def mappedProviderId (profile : RoutingProfile)
    (complexity : Option ComplexityTier) (use_agentic : Bool) : Option String :=
  complexity.bind fun c =>
    (alookup (mappingSource profile use_agentic) (tierKey c)).bind fun m =>
      if !m.provider_id.isEmpty then some m.provider_id else none

/-- Step 4's candidate filter. -/
def primaryCandidates (config : Config) (profile : RoutingProfile)
    (effective_model_id : String) (effective_tiers : List Tier)
    (complexity : Option ComplexityTier) (use_agentic : Bool) : List Provider :=
  config.providers.filter fun p =>
    p.enabled && (p.models.any fun m => m.id == effective_model_id) &&
    (match mappedProviderId profile complexity use_agentic with
     | some pid => p.id == pid
     | none => decide (p.tier ∈ effective_tiers))

/-- Step 5's fallback filter (original model id, tier filtering). -/
def fallbackCandidates (config : Config) (model_id : String)
    (effective_tiers : List Tier) : List Provider :=
  config.providers.filter fun p =>
    p.enabled && (p.models.any fun m => m.id == model_id) &&
    decide (p.tier ∈ effective_tiers)

/-- `partial_cmp` on two present costs (total on `ℚ`; the
`unwrap_or(Equal)` branch for NaN is unreachable). -/
def cmpQ (a b : ℚ) : Ordering :=
  if a < b then .lt else if a = b then .eq else .gt

/-- Cost comparison with the `f64::MAX` sentinel for an absent model as
the top element. -/
def cmpCost : Option ℚ → Option ℚ → Ordering
  | some a, some b => cmpQ a b
  | some _, none => .lt
  | none, some _ => .gt
  | none, none => .eq

/-- `usize` comparison. -/
def cmpNat (a b : Nat) : Ordering :=
  if a < b then .lt else if a = b then .eq else .gt

/-- Position of the provider's tier in the effective tier list, with the
list length standing in for the `usize::MAX` not-found sentinel. -/
def providerTierPos (effective_tiers : List Tier) (p : Provider) : Nat :=
  match effective_tiers.findIdx? (fun t => t == p.tier) with
  | some i => i
  | none => effective_tiers.length

/-- Input cost of the provider's model matching the effective id. -/
def providerCostKey (effective_model_id : String) (p : Provider) : Option ℚ :=
  (p.models.find? fun m => m.id == effective_model_id).map (·.input_cost_per_1m)

/-- Step 6's comparator: tier position, then matching-model input cost,
then priority descending. -/
def providerCompare (effective_tiers : List Tier) (effective_model_id : String)
    (a b : Provider) : Ordering :=
  match cmpNat (providerTierPos effective_tiers a) (providerTierPos effective_tiers b) with
  | .eq =>
      match cmpCost (providerCostKey effective_model_id a) (providerCostKey effective_model_id b) with
      | .eq => cmpNat b.priority a.priority
      | o => o
  | o => o

/-- The non-strict order the sort establishes. -/
def providerLe (effective_tiers : List Tier) (effective_model_id : String)
    (a b : Provider) : Prop :=
  providerCompare effective_tiers effective_model_id a b ≠ .gt

instance (effective_tiers : List Tier) (effective_model_id : String) :
    DecidableRel (providerLe effective_tiers effective_model_id) := fun a b =>
  inferInstanceAs (Decidable (providerCompare effective_tiers effective_model_id a b ≠ .gt))

/-- Steps 4–5: the unsorted candidate list for a selected profile. -/
def routeCandidates (config : Config) (profile : RoutingProfile) (model_id : String)
    (complexity : Option ComplexityTier) (use_agentic : Bool) : List Provider :=
  let effective_model_id := profileEffectiveModelId profile model_id complexity use_agentic
  let effective_tiers := profileEffectiveTiers profile complexity
  let primary := primaryCandidates config profile effective_model_id effective_tiers complexity use_agentic
  if primary.isEmpty && effective_model_id != model_id then
    fallbackCandidates config model_id effective_tiers
  else primary

/-- `Router::route_request_with_profile`.  `Vec::sort_by` is a stable
sort agreeing with any sort that permutes the input and establishes the
comparator's order; insertion sort is such a stable sort.  The result is
`none` exactly when the code would panic indexing `profiles[0]` of an
empty profile list. -/
def routeRequestWithProfile (config : Config) (model_id : String)
    (complexity : Option ComplexityTier) (profile_override : Option String)
    (use_agentic : Bool) : Option (List Provider) :=
  match selectedProfile config profile_override with
  | none => none
  | some profile =>
      some (List.insertionSort
        (providerLe (profileEffectiveTiers profile complexity)
          (profileEffectiveModelId profile model_id complexity use_agentic))
        (routeCandidates config profile model_id complexity use_agentic))

/-- `Router::route_request`. -/
def routeRequest (config : Config) (model_id : String)
    (complexity : Option ComplexityTier) (use_agentic : Bool) : Option (List Provider) :=
  routeRequestWithProfile config model_id complexity none use_agentic

/-- `Router::resolve_model_id_with_profile` (note: no `profiles[0]`
fallback here — a missing profile leaves the model id unchanged). -/
def resolveModelIdWithProfile (config : Config) (model_id : String)
    (complexity : Option ComplexityTier) (profile_override : Option String)
    (use_agentic : Bool) : String :=
  let profile_name := profile_override.getD config.active_profile
  match config.profiles.find? (fun p => p.name == profile_name), complexity with
  | some profile, some c =>
      match alookup (mappingSource profile use_agentic) (tierKey c) with
      | some mapping => if !mapping.model_id.isEmpty then mapping.model_id else model_id
      | none => model_id
  | _, _ => model_id

/-- The effective model id the router computes (steps 1–3), meaningful
whenever the profile selection does not panic. -/
def routeEffectiveModelId (config : Config) (model_id : String)
    (complexity : Option ComplexityTier) (profile_override : Option String)
    (use_agentic : Bool) : String :=
  match selectedProfile config profile_override with
  | some profile => profileEffectiveModelId profile model_id complexity use_agentic
  | none => model_id

/-- The effective tier list the router computes (step 3). -/
def routeEffectiveTiers (config : Config)
    (complexity : Option ComplexityTier) (profile_override : Option String) : List Tier :=
  match selectedProfile config profile_override with
  | some profile => profileEffectiveTiers profile complexity
  | none => []

/-- Whether the router's step-5 fallback fires: no primary candidate and
the mapping changed the model id. -/
def routeFellBack (config : Config) (model_id : String)
    (complexity : Option ComplexityTier) (profile_override : Option String)
    (use_agentic : Bool) : Bool :=
  match selectedProfile config profile_override with
  | none => false
  | some profile =>
      let effective_model_id := profileEffectiveModelId profile model_id complexity use_agentic
      let effective_tiers := profileEffectiveTiers profile complexity
      (primaryCandidates config profile effective_model_id effective_tiers complexity use_agentic).isEmpty
        && effective_model_id != model_id

/-! ## State store (`state.rs`)

Timestamps are unix seconds (`Nat`); the uuid and creation time of a log
entry are taken as parameters of `RequestLog.new` since they come from
the environment. -/

structure RequestLog where
  id : String
  timestamp : Nat
  model : String
  effective_model : Option String
  provider : Option String
  status : String
  status_code : Option Nat
  duration_ms : Nat
  input_tokens : Option Nat
  output_tokens : Option Nat
  estimated_cost : Option ℚ
  complexity_tier : Option String
  complexity_score : Option ℚ
  error_message : Option String
  providers_tried : List String
  cache_status : Option String
  agentic_mode : Option Bool
  session_id : Option String
  session_pinned : Option Bool
deriving DecidableEq

/-- `RequestLog::new`. -/
def RequestLog.new (uuid : String) (now : Nat) (model : String) : RequestLog :=
  ⟨uuid, now, model, none, none, "pending", none, 0, none, none, none,
   none, none, none, [], none, none, none, none⟩

/-- `MAX_LOGS`. -/
def MAX_LOGS : Nat := 1000

/-- `AppState::add_log`: push, then drain the oldest entries down to
`MAX_LOGS`. -/
def addLog (logs : List RequestLog) (log : RequestLog) : List RequestLog :=
  let pushed := logs ++ [log]
  if pushed.length > MAX_LOGS then pushed.drop (pushed.length - MAX_LOGS) else pushed

/-! ## Request orchestration slices (`handlers.rs`)

The inbound request: fixed `model` and `messages` plus the flattened
extras bag.  Headers are an association list of lowercased header names
to their (assumed visible-ASCII) values, matching `HeaderMap`
normalization. -/

structure ChatCompletionRequest where
  model : String
  messages : List Json
  extra : List (String × Json)

/-- `has_tools`: the `tools` extra is a non-empty array. -/
def hasTools (request : ChatCompletionRequest) : Bool :=
  match (alookup request.extra "tools").bind Json.asArr with
  | some arr => !arr.isEmpty
  | none => false

/-- The `parts` string built by `extract_session_id`'s loop: string
content of `system` and `user` messages in message order, stopping after
the first `user` message (whether or not it contributed text). -/
def fingerprintParts : List Json → String
  | [] => ""
  | msg :: rest =>
      let role := ((msg.get "role").bind Json.asStr).getD ""
      if role = "system" ∨ role = "user" then
        let text := ((msg.get "content").bind Json.asStr).getD ""
        if role = "user" then text else text ++ fingerprintParts rest
      else fingerprintParts rest

/-- `extract_session_id`: header, then `conversation_id` extra, then the
`fp:`-prefixed fingerprint. -/
def extractSessionId (headers : List (String × String))
    (request : ChatCompletionRequest) : Option String :=
  match alookup headers "x-session-id" with
  | some s =>
      if !s.isEmpty then some s
      else sessionIdFromBody request
  | none => sessionIdFromBody request
where
  /-- Steps 2–3 of the chain. -/
  sessionIdFromBody (request : ChatCompletionRequest) : Option String :=
    match (alookup request.extra "conversation_id").bind Json.asStr with
    | some s =>
        if !s.isEmpty then some s
        else sessionIdFromFingerprint request
    | none => sessionIdFromFingerprint request
  /-- Step 3 of the chain. -/
  sessionIdFromFingerprint (request : ChatCompletionRequest) : Option String :=
    let parts := fingerprintParts request.messages
    if !parts.isEmpty then some ("fp:" ++ sha256hex parts) else none

/-- The scoring / agentic-detection segment of `chat_completions`
(`handlers.rs` lines 154–192): given the pending log entry, returns the
updated log entry, the complexity passed to the router, the agentic
keyword count, and the agentic flag. -/
def chatScoringPhase (config : Config) (request : ChatCompletionRequest)
    (log_entry : RequestLog) :
    RequestLog × Option ComplexityTier × Nat × Bool :=
  let tools_present := hasTools request
  let scorer_config := config.scorer.getD scorerConfigDefault
  let scoring_result :=
    if scorer_config.enabled then some (scorerScore request.messages scorer_config)
    else none
  let complexity := scoring_result.map (·.tier)
  let log1 :=
    match scoring_result with
    | some result =>
        { log_entry with
            complexity_tier := some (tierDebugStr result.tier),
            complexity_score := some result.raw_score }
    | none => log_entry
  let agentic_keyword_count : Nat := (scoring_result.map (·.agentic_keyword_count)).getD 0
  let is_agentic := tools_present || config.agentic_mode || decide (agentic_keyword_count ≥ 2)
  let log2 := { log1 with agentic_mode := some is_agentic }
  (log2, complexity, agentic_keyword_count, is_agentic)
where
  /-- `format!("{:?}", tier)`. -/
  tierDebugStr : ComplexityTier → String
    | .Simple => "Simple"
    | .Medium => "Medium"
    | .Complex => "Complex"
    | .Reasoning => "Reasoning"

/-! ## Claims about the log ring (C8) and router totality (C9) -/

/-- C8: after every `add_log` the log list has at most `MAX_LOGS = 1000`
entries, and the surviving entries are exactly the most recently
inserted ones in insertion order — the pushed sequence with its
oldest-by-insertion prefix dropped. -/
theorem addLog_bounded_keeps_most_recent (logs : List RequestLog) (log : RequestLog) :
    (addLog logs log).length ≤ MAX_LOGS ∧
    addLog logs log = (logs ++ [log]).drop ((logs ++ [log]).length - MAX_LOGS) := by
  by_cases hc : (logs ++ [log]).length > 1000
  · refine ⟨?_, ?_⟩
    · simp only [addLog, MAX_LOGS, if_pos hc, List.length_drop]
      omega
    · simp only [addLog, MAX_LOGS, if_pos hc]
  · refine ⟨?_, ?_⟩
    · simp only [addLog, MAX_LOGS, if_neg hc]
      omega
    · simp only [addLog, MAX_LOGS, if_neg hc]
      rw [Nat.sub_eq_zero_of_le (Nat.le_of_not_lt hc), List.drop_zero]

/-- C9: routing reads `profiles[0]` whenever the resolved profile name
matches no profile, and on a `Config` with an empty profile list that
indexing panics (modelled by `none`) for every requested model — the
router is total exactly when `profiles` is non-empty. -/
theorem route_panics_iff_no_profiles (config : Config) (model_id : String)
    (complexity : Option ComplexityTier) (profile_override : Option String)
    (use_agentic : Bool) :
    (routeRequestWithProfile config model_id complexity profile_override use_agentic = none ↔
      config.profiles = []) ∧
    (config.profiles.find? (fun p => p.name == profile_override.getD config.active_profile) = none →
      selectedProfile config profile_override = config.profiles.head?) := by
  constructor
  · unfold routeRequestWithProfile selectedProfile
    cases hp : config.profiles with
    | nil => simp
    | cons a l =>
        cases hf : (a :: l).find? (fun p => p.name == profile_override.getD config.active_profile) <;>
          simp [hf]
  · intro h
    simp only [selectedProfile]
    rw [h]

/-- Concrete config with no profiles, for the C9 witness. -/
def cfgNoProfiles : Config := ⟨[], [], "auto", none, none, false, none⟩

/-- C9 witness: on the concrete empty-profile config the router panics. -/
theorem route_panics_iff_no_profiles_witness :
    routeRequestWithProfile cfgNoProfiles "gpt-4" none none false = none :=
  (route_panics_iff_no_profiles cfgNoProfiles "gpt-4" none none false).1.mpr rfl

/-! ## Claim about the cache get contract (C5) -/

/-- C5: `cache::get` returns the stored body exactly when the cache is
enabled, the file at the entry path exists and parses, and
`now − cached_at ≤ ttl_seconds`; a disabled cache returns nothing and
leaves the file system alone; an expired entry is removed and nothing is
returned; a missing or unparsable file yields nothing rather than an
error. -/
theorem cacheGet_disabled {config : CacheConfig} {fs : List (String × FileContent)}
    {now : Nat} {key : String} (h : config.enabled = false) :
    cacheGet config fs now key = (none, fs) := by
  simp [cacheGet, h]

theorem cacheGet_missing {config : CacheConfig} {fs : List (String × FileContent)}
    {now : Nat} {key : String} (he : config.enabled = true)
    (hl : alookup fs (entryPath config.cache_dir key) = none) :
    cacheGet config fs now key = (none, fs) := by
  simp [cacheGet, he, hl]

theorem cacheGet_corrupt {config : CacheConfig} {fs : List (String × FileContent)}
    {now : Nat} {key : String} (he : config.enabled = true)
    (hl : alookup fs (entryPath config.cache_dir key) = some .corrupt) :
    cacheGet config fs now key = (none, fs) := by
  simp [cacheGet, he, hl]

theorem cacheGet_expired {config : CacheConfig} {fs : List (String × FileContent)}
    {now : Nat} {key : String} {e : CacheEntry} (he : config.enabled = true)
    (hl : alookup fs (entryPath config.cache_dir key) = some (.entry e))
    (hexp : config.ttl_seconds < now - e.cached_at) :
    cacheGet config fs now key = (none, fsRemove fs (entryPath config.cache_dir key)) := by
  simp [cacheGet, he, hl, hexp]

theorem cacheGet_fresh {config : CacheConfig} {fs : List (String × FileContent)}
    {now : Nat} {key : String} {e : CacheEntry} (he : config.enabled = true)
    (hl : alookup fs (entryPath config.cache_dir key) = some (.entry e))
    (hfresh : now - e.cached_at ≤ config.ttl_seconds) :
    cacheGet config fs now key = (some e.response_body, fs) := by
  simp [cacheGet, he, hl, Nat.not_lt.mpr hfresh]

theorem cacheGet_contract (config : CacheConfig) (fs : List (String × FileContent))
    (now : Nat) (key : String) :
    (config.enabled = false → cacheGet config fs now key = (none, fs)) ∧
    (∀ body, (cacheGet config fs now key).1 = some body ↔
      config.enabled = true ∧
      ∃ e, alookup fs (entryPath config.cache_dir key) = some (.entry e) ∧
        now - e.cached_at ≤ config.ttl_seconds ∧ body = e.response_body) ∧
    (∀ e, config.enabled = true →
      alookup fs (entryPath config.cache_dir key) = some (.entry e) →
      config.ttl_seconds < now - e.cached_at →
      cacheGet config fs now key = (none, fsRemove fs (entryPath config.cache_dir key))) ∧
    (config.enabled = true → alookup fs (entryPath config.cache_dir key) = none →
      cacheGet config fs now key = (none, fs)) ∧
    (config.enabled = true → alookup fs (entryPath config.cache_dir key) = some .corrupt →
      cacheGet config fs now key = (none, fs)) := by
  refine ⟨fun he => cacheGet_disabled he, fun body => ?_,
    fun e he hl hexp => cacheGet_expired he hl hexp,
    fun he hl => cacheGet_missing he hl, fun he hl => cacheGet_corrupt he hl⟩
  constructor
  · intro h
    cases he : config.enabled with
    | false => rw [cacheGet_disabled he] at h; simp at h
    | true =>
        cases hl : alookup fs (entryPath config.cache_dir key) with
        | none => rw [cacheGet_missing he hl] at h; simp at h
        | some fc =>
            cases fc with
            | corrupt => rw [cacheGet_corrupt he hl] at h; simp at h
            | entry e =>
                by_cases hexp : now - e.cached_at ≤ config.ttl_seconds
                · rw [cacheGet_fresh he hl hexp] at h
                  simp only [Option.some.injEq] at h
                  exact ⟨rfl, e, rfl, hexp, h.symm⟩
                · rw [cacheGet_expired he hl (Nat.not_le.mp hexp)] at h
                  simp at h
  · rintro ⟨he, e, hl, hfresh, hb⟩
    subst hb
    rw [cacheGet_fresh he hl hfresh]

/-- Concrete file system and config for the C5 witness. -/
def c5entry : CacheEntry := ⟨100, "gpt-4", [1, 2, 3]⟩

/-- Concrete cache config for the C5 witness. -/
def c5config : CacheConfig := ⟨true, 60, "cache"⟩

/-- C5 witness: a fresh entry is returned; the same entry queried past
its TTL is removed. -/
theorem cacheGet_contract_witness :
    (cacheGet c5config [(entryPath "cache" "abcd", .entry c5entry)] 120 "abcd").1 = some [1, 2, 3] ∧
    cacheGet c5config [(entryPath "cache" "abcd", .entry c5entry)] 500 "abcd" =
      (none, fsRemove [(entryPath "cache" "abcd", .entry c5entry)] (entryPath "cache" "abcd")) := by
  constructor
  · exact ((cacheGet_contract c5config [(entryPath "cache" "abcd", .entry c5entry)] 120 "abcd").2.1
      [1, 2, 3]).mpr ⟨rfl, c5entry, by rfl, by decide, rfl⟩
  · exact (cacheGet_contract c5config [(entryPath "cache" "abcd", .entry c5entry)] 500 "abcd").2.2.1
      c5entry rfl (by rfl) (by decide)

/-! ## Claim about the disabled scorer (C10) -/

/-- C10: when the effective scorer configuration is disabled,
`chat_completions` performs no scoring — the log's complexity fields are
untouched (they stay unset), the agentic keyword count is 0, and the
agentic decision degenerates to `tools_present || config.agentic_mode`. -/
theorem scorer_disabled_no_scoring (config : Config) (request : ChatCompletionRequest)
    (log_entry : RequestLog)
    (h : (config.scorer.getD scorerConfigDefault).enabled = false) :
    (chatScoringPhase config request log_entry).1.complexity_tier = log_entry.complexity_tier ∧
    (chatScoringPhase config request log_entry).1.complexity_score = log_entry.complexity_score ∧
    (chatScoringPhase config request log_entry).2.1 = none ∧
    (chatScoringPhase config request log_entry).2.2.1 = 0 ∧
    (chatScoringPhase config request log_entry).2.2.2 =
      (hasTools request || config.agentic_mode) := by
  unfold chatScoringPhase
  simp [h]

/-- Concrete config for the C10 witness: a scorer section with
`enabled = false`. -/
def c10config : Config :=
  ⟨[], [⟨"auto", "", [.Cheap], [], []⟩], "auto",
   some { scorerConfigDefault with enabled := false }, none, false, none⟩

/-- Concrete request for the C10 witness. -/
def c10request : ChatCompletionRequest :=
  ⟨"gpt-4", [Json.obj [("role", .str "user"), ("content", .str "fix the bug and verify, make sure it works")]], []⟩

/-- C10 witness: with the scorer disabled, no complexity is recorded and
the agentic flag is false despite the agentic keywords in the prompt. -/
theorem scorer_disabled_no_scoring_witness :
    (chatScoringPhase c10config c10request (RequestLog.new "id" 0 "gpt-4")).2.2.1 = 0 ∧
    (chatScoringPhase c10config c10request (RequestLog.new "id" 0 "gpt-4")).2.2.2 =
      (hasTools c10request || c10config.agentic_mode) :=
  ⟨(scorer_disabled_no_scoring c10config c10request (RequestLog.new "id" 0 "gpt-4") rfl).2.2.2.1,
   (scorer_disabled_no_scoring c10config c10request (RequestLog.new "id" 0 "gpt-4") rfl).2.2.2.2⟩

/-! ## Claims about the scorer (C3, C6) -/

/-- A keyword-match raw score reaches 0.6 exactly when at least two
keywords match. -/
theorem keywordScore_ge_point_six_iff (text : String) (keywords : List String) (name : String) :
    ((0.6 : ℚ) ≤ (scoreKeywordMatch text keywords name).1 ↔ 2 ≤ keywordCount text keywords) := by
  unfold scoreKeywordMatch
  rcases hc : keywordCount text keywords with _ | _ | _ | n <;> simp [hc] <;> norm_num

/-- C3: whenever the reasoning_markers raw dimension score is at least
0.6 — equivalently, at least two reasoning keywords match the extracted
text — `Scorer::score` returns the Reasoning tier with override
`"reasoning_markers_force"`, for every scorer configuration and hence
over whatever the earlier token-count and structured-output overrides
set. -/
theorem reasoning_markers_force_override (messages : List Json) (config : ScorerConfig)
    (h : (0.6 : ℚ) ≤ (scoreKeywordMatch (extractText messages) REASONING_KEYWORDS "reasoning").1) :
    (scorerScore messages config).tier = .Reasoning ∧
    (scorerScore messages config).override_applied = some "reasoning_markers_force" ∧
    2 ≤ keywordCount (extractText messages) REASONING_KEYWORDS := by
  refine ⟨?_, ?_, (keywordScore_ge_point_six_iff _ _ _).mp h⟩ <;>
    simp [scorerScore, h]

/-- Concrete messages for the C3 witness: two reasoning keywords
(`prove`, `theorem`) in one user message. -/
def c3messages : List Json :=
  [Json.obj [("role", Json.str "user"), ("content", Json.str "Prove the theorem about FLT.")]]

/-- C3 witness: the concrete prompt is forced to the Reasoning tier. -/
theorem reasoning_markers_force_override_witness :
    (scorerScore c3messages scorerConfigDefault).tier = .Reasoning ∧
    (scorerScore c3messages scorerConfigDefault).override_applied =
      some "reasoning_markers_force" :=
  ⟨(reasoning_markers_force_override c3messages scorerConfigDefault
      ((keywordScore_ge_point_six_iff _ _ _).mpr (by decide))).1,
   (reasoning_markers_force_override c3messages scorerConfigDefault
      ((keywordScore_ge_point_six_iff _ _ _).mpr (by decide))).2.1⟩

/-- The failing input for C6: a prompt consisting of SQL statements. -/
def sqlPrompt : List Json :=
  [Json.obj [("role", Json.str "user"),
             ("content", Json.str "SELECT * FROM users; CREATE TABLE t (id INT);")]]

/-- C6: the extracted text is lowercased once, the prompt genuinely
contains `SELECT` and `CREATE TABLE`, yet the code_presence keyword
count — and with it the raw dimension score — evaluates to 0: the
uppercase SQL entries of `CODE_KEYWORDS` can never occur as substrings
of the lowercased text, contradicting the claim that such a prompt
scores nonzero. -/
theorem sql_prompt_code_presence_zero :
    extractText sqlPrompt = "select * from users; create table t (id int);" ∧
    strContains "SELECT * FROM users; CREATE TABLE t (id INT);" "SELECT" = true ∧
    strContains "SELECT * FROM users; CREATE TABLE t (id INT);" "CREATE TABLE" = true ∧
    keywordCount (extractText sqlPrompt) CODE_KEYWORDS = 0 ∧
    (scoreKeywordMatch (extractText sqlPrompt) CODE_KEYWORDS "code").1 = 0 := by
  have hc : keywordCount (extractText sqlPrompt) CODE_KEYWORDS = 0 := by decide
  refine ⟨by decide, by decide, by decide, hc, ?_⟩
  simp only [scoreKeywordMatch, hc]
  norm_num

/-! ## Claim about the cache key (C2) -/

/-- Congruence for `concatMap`. -/
theorem concatMap_congr {f g : α → List β} {l : List α} (h : ∀ a ∈ l, f a = g a) :
    concatMap f l = concatMap g l := by
  induction l with
  | nil => rfl
  | cons a t ih =>
      simp only [concatMap]
      rw [h a (by simp), ih fun x hx => h x (by simp [hx])]

/-- A key has a lookup value exactly when it occurs among the keys. -/
theorem alookup_isSome_iff {l : List (String × α)} {k : String} :
    (alookup l k).isSome = true ↔ k ∈ l.map Prod.fst := by
  induction l with
  | nil => simp [alookup]
  | cons p t ih =>
      obtain ⟨k', v⟩ := p
      by_cases hk : k' = k
      · subst hk
        simp [alookup]
      · simp [alookup, hk, ih, Ne.symm hk]

/-- `sortStrings` permutes its input. -/
theorem sortStrings_perm (l : List String) : List.Perm (sortStrings l) l :=
  List.perm_insertionSort _ _

/-- Two duplicate-free string lists with the same members sort to the
same list. -/
theorem sortStrings_eq_of_mem_iff {l1 l2 : List String} (h1 : l1.Nodup) (h2 : l2.Nodup)
    (h : ∀ x, x ∈ l1 ↔ x ∈ l2) : sortStrings l1 = sortStrings l2 := by
  have hperm : List.Perm l1 l2 :=
    List.perm_of_nodup_nodup_toFinset_eq h1 h2 (by ext x; simp [List.mem_toFinset, h x])
  have hp : List.Perm (sortStrings l1) (sortStrings l2) :=
    (sortStrings_perm l1).trans (hperm.trans (sortStrings_perm l2).symm)
  exact List.eq_of_perm_of_sorted hp (List.sorted_insertionSort _ _)
    (List.sorted_insertionSort _ _)

/-- C2: the cache key is a deterministic function of the model, the
messages, and the restriction of the extras map to the nine recognized
keys — two extras maps (with unique keys, as `HashMap` guarantees) that
agree on those nine keys produce identical keys, whatever other entries
they hold and in whatever order they present everything.  The
recognized entries are hashed in ascending key order by construction of
`cacheKeyStream`. -/
theorem cacheKey_deterministic (model : String) (messages : List Json)
    (e1 e2 : List (String × Json))
    (h1 : (e1.map Prod.fst).Nodup) (h2 : (e2.map Prod.fst).Nodup)
    (h : ∀ k ∈ recognizedCacheKeys, alookup e1 k = alookup e2 k) :
    cacheKey model messages e1 = cacheKey model messages e2 := by
  have hkeys : sortStrings ((e1.map Prod.fst).filter (· ∈ recognizedCacheKeys)) =
      sortStrings ((e2.map Prod.fst).filter (· ∈ recognizedCacheKeys)) := by
    refine sortStrings_eq_of_mem_iff (h1.filter _) (h2.filter _) fun x => ?_
    simp only [List.mem_filter, decide_eq_true_eq]
    constructor
    · rintro ⟨hm, hr⟩
      refine ⟨?_, hr⟩
      have hs := alookup_isSome_iff.mpr hm
      rw [h x hr] at hs
      exact alookup_isSome_iff.mp hs
    · rintro ⟨hm, hr⟩
      refine ⟨?_, hr⟩
      have hs := alookup_isSome_iff.mpr hm
      rw [← h x hr] at hs
      exact alookup_isSome_iff.mp hs
  have hvals : ∀ k ∈ sortStrings ((e2.map Prod.fst).filter (· ∈ recognizedCacheKeys)),
      strBytes k ++ strBytes (serializeJson ((alookup e1 k).getD Json.null)) =
      strBytes k ++ strBytes (serializeJson ((alookup e2 k).getD Json.null)) := by
    intro k hk
    have hk2 : k ∈ (e2.map Prod.fst).filter (· ∈ recognizedCacheKeys) :=
      (sortStrings_perm _).mem_iff.mp hk
    have hr : k ∈ recognizedCacheKeys := by
      simpa using (List.mem_filter.mp hk2).2
    rw [h k hr]
  simp only [cacheKey, cacheKeyStream]
  rw [hkeys, concatMap_congr hvals]

/-- Extras map for the C2 witness: one recognized key plus an
unrecognized one. -/
def c2extra1 : List (String × Json) :=
  [("temperature", Json.num "1"), ("user_tag", Json.str "alpha")]

/-- A differently ordered extras map with a different unrecognized entry
but the same recognized entries. -/
def c2extra2 : List (String × Json) :=
  [("beta_flag", Json.bool true), ("temperature", Json.num "1")]

/-- C2 witness: the two concrete extras maps agree on the nine
recognized keys, so their cache keys coincide. -/
theorem cacheKey_deterministic_witness :
    cacheKey "gpt-4" [] c2extra1 = cacheKey "gpt-4" [] c2extra2 :=
  cacheKey_deterministic "gpt-4" [] c2extra1 c2extra2 (by decide) (by decide)
    (by intro k hk; fin_cases hk <;> rfl)

/-! ## Claims about the router's output (C4, C1) -/

theorem cmpNat_lt_iff {a b : Nat} : cmpNat a b = .lt ↔ a < b := by
  unfold cmpNat
  split_ifs with h1 h2
  · simp [h1]
  · simp
    omega
  · simp
    omega

theorem cmpNat_eq_iff {a b : Nat} : cmpNat a b = .eq ↔ a = b := by
  unfold cmpNat
  split_ifs with h1 h2
  · simp
    omega
  · simp [h2]
  · simp [h2]

theorem cmpNat_gt_iff {a b : Nat} : cmpNat a b = .gt ↔ b < a := by
  unfold cmpNat
  split_ifs with h1 h2
  · simp
    omega
  · simp
    omega
  · simp
    omega

theorem cmpQ_lt_iff {a b : ℚ} : cmpQ a b = .lt ↔ a < b := by
  unfold cmpQ
  split_ifs with h1 h2
  · simp [h1]
  · simp
    exact le_of_not_lt h1
  · simp
    exact le_of_not_lt h1

theorem cmpQ_eq_iff {a b : ℚ} : cmpQ a b = .eq ↔ a = b := by
  unfold cmpQ
  split_ifs with h1 h2
  · simp
    exact ne_of_lt h1
  · simp [h2]
  · simp [h2]

theorem cmpQ_gt_iff {a b : ℚ} : cmpQ a b = .gt ↔ b < a := by
  unfold cmpQ
  split_ifs with h1 h2
  · simp
    exact le_of_lt h1
  · subst h2
    simp
  · simp
    exact lt_of_le_of_ne (le_of_not_lt h1) fun hba => h2 hba.symm

/-- The cost key mapped into `WithTop ℚ` (the sentinel is the top
element). -/
def costVal : Option ℚ → WithTop ℚ
  | some q => (q : WithTop ℚ)
  | none => ⊤

theorem costVal_inj {x y : Option ℚ} (h : costVal x = costVal y) : x = y := by
  cases x <;> cases y <;> simp_all [costVal]

theorem cmpCost_lt_iff {x y : Option ℚ} : cmpCost x y = .lt ↔ costVal x < costVal y := by
  cases x <;> cases y <;> simp [cmpCost, costVal, cmpQ_lt_iff]

theorem cmpCost_eq_iff {x y : Option ℚ} : cmpCost x y = .eq ↔ x = y := by
  cases x <;> cases y <;> simp [cmpCost, cmpQ_eq_iff]

/-- The composite sort key order of the claim: tier position in the
effective tier list, then matching-model input cost (absent model =
`f64::MAX` = top), then priority descending. -/
def providerKeyLe (effective_tiers : List Tier) (effective_model_id : String)
    (a b : Provider) : Prop :=
  providerTierPos effective_tiers a < providerTierPos effective_tiers b ∨
    (providerTierPos effective_tiers a = providerTierPos effective_tiers b ∧
      (costVal (providerCostKey effective_model_id a) < costVal (providerCostKey effective_model_id b) ∨
        (providerCostKey effective_model_id a = providerCostKey effective_model_id b ∧
          b.priority ≤ a.priority)))

/-- The comparator's non-strict order is exactly the lexicographic
composite-key order. -/
theorem providerLe_iff {e : List Tier} {mid : String} {a b : Provider} :
    providerLe e mid a b ↔ providerKeyLe e mid a b := by
  unfold providerLe providerCompare providerKeyLe
  rcases hn : cmpNat (providerTierPos e a) (providerTierPos e b) with _ | _ | _
  · have hlt := cmpNat_lt_iff.mp hn
    simp [hn, hlt]
  · have heq := cmpNat_eq_iff.mp hn
    rcases hc : cmpCost (providerCostKey mid a) (providerCostKey mid b) with _ | _ | _
    · have hclt := cmpCost_lt_iff.mp hc
      simp [hn, hc, heq, hclt]
    · have hceq := cmpCost_eq_iff.mp hc
      simp only [hn, hc]
      constructor
      · intro hle
        refine Or.inr ⟨heq, Or.inr ⟨hceq, ?_⟩⟩
        by_contra hlt
        exact hle (cmpNat_gt_iff.mpr (Nat.lt_of_not_le hlt))
      · rintro (hlt | ⟨-, hclt | ⟨-, hple⟩⟩)
        · exact absurd hlt (by omega)
        · exact absurd (cmpCost_lt_iff.mpr hclt) (by simp [hc])
        · intro hgt
          exact absurd hple (Nat.not_le.mpr (cmpNat_gt_iff.mp hgt))
    · simp only [hn, hc]
      constructor
      · intro hne
        exact absurd rfl hne
      · rintro (hlt | ⟨-, hclt | ⟨hceq, -⟩⟩)
        · exact absurd hlt (by omega)
        · exact absurd (cmpCost_lt_iff.mpr hclt) (by simp [hc])
        · exact absurd (cmpCost_eq_iff.mpr hceq) (by simp [hc])
  · have hgt := cmpNat_gt_iff.mp hn
    simp only [hn]
    constructor
    · intro hne
      exact absurd rfl hne
    · rintro (hlt | ⟨heq, -⟩)
      · omega
      · omega

instance (e : List Tier) (mid : String) : IsTrans Provider (providerLe e mid) := by
  constructor
  intro a b c hab hbc
  rw [providerLe_iff] at *
  rcases hab with h1 | ⟨e1, hc1⟩ <;> rcases hbc with h2 | ⟨e2, hc2⟩
  · exact Or.inl (lt_trans h1 h2)
  · exact Or.inl (by omega)
  · exact Or.inl (by omega)
  · refine Or.inr ⟨by omega, ?_⟩
    rcases hc1 with hlt1 | ⟨heq1, hp1⟩ <;> rcases hc2 with hlt2 | ⟨heq2, hp2⟩
    · exact Or.inl (lt_trans hlt1 hlt2)
    · exact Or.inl (by rw [← heq2]; exact hlt1)
    · exact Or.inl (by rw [heq1]; exact hlt2)
    · exact Or.inr ⟨heq1.trans heq2, le_trans hp2 hp1⟩

instance (e : List Tier) (mid : String) : IsTotal Provider (providerLe e mid) := by
  constructor
  intro a b
  rw [providerLe_iff, providerLe_iff]
  rcases lt_trichotomy (providerTierPos e a) (providerTierPos e b) with h | h | h
  · exact Or.inl (Or.inl h)
  · rcases lt_trichotomy (costVal (providerCostKey mid a)) (costVal (providerCostKey mid b)) with
      hc | hc | hc
    · exact Or.inl (Or.inr ⟨h, Or.inl hc⟩)
    · have hk := costVal_inj hc
      rcases le_total b.priority a.priority with hp | hp
      · exact Or.inl (Or.inr ⟨h, Or.inr ⟨hk, hp⟩⟩)
      · exact Or.inr (Or.inr ⟨h.symm, Or.inr ⟨hk.symm, hp⟩⟩)
    · exact Or.inr (Or.inr ⟨h.symm, Or.inl hc⟩)
  · exact Or.inr (Or.inl h)

/-- The router's output for a selected profile, as one equation. -/
theorem route_eq_of_selected {config : Config} {model_id : String}
    {complexity : Option ComplexityTier} {profile_override : Option String}
    {use_agentic : Bool} {profile : RoutingProfile}
    (hsel : selectedProfile config profile_override = some profile) :
    routeRequestWithProfile config model_id complexity profile_override use_agentic =
      some (List.insertionSort
        (providerLe (profileEffectiveTiers profile complexity)
          (profileEffectiveModelId profile model_id complexity use_agentic))
        (routeCandidates config profile model_id complexity use_agentic)) := by
  unfold routeRequestWithProfile
  rw [hsel]

/-- C4: the candidate list returned by `route_request_with_profile` is
sorted ascending by the composite key (tier position in the effective
tier list, then input cost of the model matching the effective model
id, then priority descending): any earlier entry's key is
lexicographically ≤ any later entry's key. -/
theorem route_sorted_by_composite_key (config : Config) (model_id : String)
    (complexity : Option ComplexityTier) (profile_override : Option String)
    (use_agentic : Bool) (l : List Provider)
    (hl : routeRequestWithProfile config model_id complexity profile_override use_agentic =
      some l) :
    ∀ (i j : Fin l.length), i < j →
      providerKeyLe (routeEffectiveTiers config complexity profile_override)
        (routeEffectiveModelId config model_id complexity profile_override use_agentic)
        (l.get i) (l.get j) := by
  cases hsel : selectedProfile config profile_override with
  | none =>
      rw [routeRequestWithProfile, hsel] at hl
      cases hl
  | some profile =>
      rw [route_eq_of_selected hsel] at hl
      have hl2 := (Option.some.inj hl).symm
      have hT : routeEffectiveTiers config complexity profile_override =
          profileEffectiveTiers profile complexity := by
        unfold routeEffectiveTiers
        rw [hsel]
      have hM : routeEffectiveModelId config model_id complexity profile_override use_agentic =
          profileEffectiveModelId profile model_id complexity use_agentic := by
        unfold routeEffectiveModelId
        rw [hsel]
      have hsorted : List.Sorted
          (providerLe (profileEffectiveTiers profile complexity)
            (profileEffectiveModelId profile model_id complexity use_agentic)) l := by
        rw [hl2]
        exact List.sorted_insertionSort _ _
      have hpair : List.Pairwise
          (providerKeyLe (profileEffectiveTiers profile complexity)
            (profileEffectiveModelId profile model_id complexity use_agentic)) l :=
        hsorted.imp fun h => providerLe_iff.mp h
      rw [hT, hM]
      exact fun i j hij => List.pairwise_iff_get.mp hpair i j hij

/-- Providers for the C4 witness. -/
def provExpensive : Provider :=
  ⟨"p1", "Expensive", .OpenAI, none, none, .Subscription, true, 1,
   [⟨"gpt-4", "gpt-4", 30, 60, 8192, false, true⟩]⟩

/-- Second provider for the C4 witness. -/
def provCheap : Provider :=
  ⟨"p2", "Cheap", .OpenAI, none, none, .Cheap, true, 1,
   [⟨"gpt-4", "gpt-4", 5, 10, 8192, false, true⟩]⟩

/-- Config for the C4 witness. -/
def c4config : Config :=
  ⟨[provExpensive, provCheap],
   [⟨"auto", "auto", [.Subscription, .Cheap], [], []⟩], "auto", none, none, false, none⟩

/-- C4 witness: on the concrete two-provider config the first returned
provider's composite key is ≤ the second's. -/
theorem route_sorted_by_composite_key_witness :
    providerKeyLe (routeEffectiveTiers c4config none none)
      (routeEffectiveModelId c4config "gpt-4" none none false) provExpensive provCheap :=
  route_sorted_by_composite_key c4config "gpt-4" none none false [provExpensive, provCheap]
    rfl ⟨0, by decide⟩ ⟨1, by decide⟩ (by decide)

/-- Provider for the C1 counterexample: serves only `gpt-4`. -/
def c1provider : Provider :=
  ⟨"p1", "P1", .OpenAI, none, none, .Cheap, true, 1,
   [⟨"gpt-4", "gpt-4", 5, 10, 8192, false, true⟩]⟩

/-- Profile for the C1 counterexample: maps the simple tier to a model
no provider serves. -/
def c1profile : RoutingProfile :=
  ⟨"auto", "auto", [.Cheap], [("simple", ⟨"mapped-x", ""⟩)], []⟩

/-- Config for the C1 counterexample. -/
def c1config : Config := ⟨[c1provider], [c1profile], "auto", none, none, false, none⟩

/-- C1 counterexample: with the mapping redirecting `gpt-4` to the
unserved `mapped-x`, the router's fallback returns the provider that
serves only the original `gpt-4`, while
`resolve_model_id_with_profile` still reports `mapped-x` — so the
returned provider has no model with the claimed effective id. -/
theorem route_resolve_mismatch_counterexample :
    routeRequestWithProfile c1config "gpt-4" (some .Simple) none false = some [c1provider] ∧
    resolveModelIdWithProfile c1config "gpt-4" (some .Simple) none false = "mapped-x" ∧
    c1provider.enabled = true ∧
    ∀ mo ∈ c1provider.models, mo.id ≠ "mapped-x" := by
  refine ⟨rfl, rfl, rfl, ?_⟩
  intro mo hmo
  fin_cases hmo
  decide

/-- C1 (amended): every provider returned by
`route_request_with_profile` is enabled and has a model whose id equals
the effective model id the router computed — except when the step-5
fallback fired (mapping changed the id and no primary candidate
matched), in which case it has a model whose id equals the original
requested id; and the router's effective id agrees with
`resolve_model_id_with_profile` whenever the resolved profile name
matches a profile. -/
theorem route_members_enabled_and_serve (config : Config) (model_id : String)
    (complexity : Option ComplexityTier) (profile_override : Option String)
    (use_agentic : Bool) (l : List Provider)
    (hl : routeRequestWithProfile config model_id complexity profile_override use_agentic =
      some l) :
    (∀ p ∈ l, p.enabled = true ∧ ∃ mo ∈ p.models,
        mo.id = (if routeFellBack config model_id complexity profile_override use_agentic = true
                 then model_id
                 else routeEffectiveModelId config model_id complexity profile_override
                   use_agentic)) ∧
    (config.profiles.find? (fun p => p.name == profile_override.getD config.active_profile) ≠
        none →
      routeEffectiveModelId config model_id complexity profile_override use_agentic =
        resolveModelIdWithProfile config model_id complexity profile_override use_agentic) := by
  cases hsel : selectedProfile config profile_override with
  | none =>
      rw [routeRequestWithProfile, hsel] at hl
      cases hl
  | some profile =>
      rw [route_eq_of_selected hsel] at hl
      have hl2 := (Option.some.inj hl).symm
      have hfb : routeFellBack config model_id complexity profile_override use_agentic =
          ((primaryCandidates config profile
              (profileEffectiveModelId profile model_id complexity use_agentic)
              (profileEffectiveTiers profile complexity) complexity use_agentic).isEmpty
            && (profileEffectiveModelId profile model_id complexity use_agentic != model_id)) := by
        unfold routeFellBack
        rw [hsel]
      have hM : routeEffectiveModelId config model_id complexity profile_override use_agentic =
          profileEffectiveModelId profile model_id complexity use_agentic := by
        unfold routeEffectiveModelId
        rw [hsel]
      constructor
      · intro p hp
        have hpc : p ∈ routeCandidates config profile model_id complexity use_agentic := by
          rw [hl2] at hp
          exact (List.perm_insertionSort _ _).mem_iff.mp hp
        simp only [routeCandidates] at hpc
        by_cases hcond : ((primaryCandidates config profile
            (profileEffectiveModelId profile model_id complexity use_agentic)
            (profileEffectiveTiers profile complexity) complexity use_agentic).isEmpty
          && (profileEffectiveModelId profile model_id complexity use_agentic != model_id)) = true
        · rw [if_pos hcond] at hpc
          obtain ⟨-, hpred⟩ := List.mem_filter.mp hpc
          simp only [Bool.and_eq_true, List.any_eq_true, beq_iff_eq, decide_eq_true_eq] at hpred
          obtain ⟨⟨hen, mo, hmo, hid⟩, -⟩ := hpred
          refine ⟨hen, mo, hmo, ?_⟩
          rw [hfb, if_pos hcond]
          exact hid
        · rw [if_neg hcond] at hpc
          obtain ⟨-, hpred⟩ := List.mem_filter.mp hpc
          simp only [Bool.and_eq_true, List.any_eq_true, beq_iff_eq] at hpred
          obtain ⟨⟨hen, mo, hmo, hid⟩, -⟩ := hpred
          refine ⟨hen, mo, hmo, ?_⟩
          rw [hfb, if_neg hcond, hM]
          exact hid
      · intro hfind
        cases hf : config.profiles.find?
            (fun p => p.name == profile_override.getD config.active_profile) with
        | none => exact absurd hf hfind
        | some pr =>
            have hsel2 : selectedProfile config profile_override = some pr := by
              simp only [selectedProfile]
              rw [hf]
            rw [hsel] at hsel2
            obtain rfl := Option.some.inj hsel2
            rw [hM]
            simp only [resolveModelIdWithProfile, profileEffectiveModelId]
            rw [hf]
            cases complexity <;> rfl

/-- C1 witness: on the concrete two-provider config the first returned
provider is enabled and serves the effective model id. -/
theorem route_members_enabled_and_serve_witness :
    provExpensive.enabled = true ∧ ∃ mo ∈ provExpensive.models,
      mo.id = (if routeFellBack c4config "gpt-4" none none false = true
               then "gpt-4" else routeEffectiveModelId c4config "gpt-4" none none false) :=
  (route_members_enabled_and_serve c4config "gpt-4" none none false
      [provExpensive, provCheap] rfl).1 provExpensive (by simp)

/-! ## Claim about session id extraction (C7) -/

/-- Messages for the C7 counterexample: a system message *after* the
first user message. -/
def c7messages : List Json :=
  [Json.obj [("role", Json.str "user"), ("content", Json.str "u")],
   Json.obj [("role", Json.str "system"), ("content", Json.str "s")]]

/-- Request for the C7 counterexample. -/
def c7request : ChatCompletionRequest := ⟨"gpt-4", c7messages, []⟩

/-- C7 counterexample: the claim says the fingerprint hashes *all*
system text plus the first user text (`"s" ++ "u"` here), but the
extraction loop breaks at the first user message and hashes only
`"u"` — the produced session id differs from the claimed one. -/
theorem extractSessionId_claim_counterexample :
    extractSessionId [] c7request = some ("fp:" ++ sha256hex "u") ∧
    extractSessionId [] c7request ≠ some ("fp:" ++ sha256hex ("s" ++ "u")) := by
  constructor
  · rfl
  · decide

/-- C7 (amended): the session id is the first non-empty of the
`x-session-id` header, the `conversation_id` string extra, and the
`fp:`-prefixed lowercase hex SHA-256 of `fingerprintParts` — the string
contents, in message order, of system messages up to the first user
message together with that first user message's string content; when
that text is empty, no session id is produced. -/
theorem extractSessionId_priority_chain (headers : List (String × String))
    (request : ChatCompletionRequest) :
    (∀ s, alookup headers "x-session-id" = some s → s.isEmpty = false →
      extractSessionId headers request = some s) ∧
    ((alookup headers "x-session-id" = none ∨ alookup headers "x-session-id" = some "") →
      ∀ s, (alookup request.extra "conversation_id").bind Json.asStr = some s →
        s.isEmpty = false → extractSessionId headers request = some s) ∧
    ((alookup headers "x-session-id" = none ∨ alookup headers "x-session-id" = some "") →
      ((alookup request.extra "conversation_id").bind Json.asStr = none ∨
        (alookup request.extra "conversation_id").bind Json.asStr = some "") →
      extractSessionId headers request =
        (if (fingerprintParts request.messages).isEmpty = true then none
         else some ("fp:" ++ sha256hex (fingerprintParts request.messages)))) := by
  have hfp : extractSessionId.sessionIdFromFingerprint request =
      (if (fingerprintParts request.messages).isEmpty = true then none
       else some ("fp:" ++ sha256hex (fingerprintParts request.messages))) := by
    unfold extractSessionId.sessionIdFromFingerprint
    by_cases hp : (fingerprintParts request.messages).isEmpty <;> simp [hp]
  have h0 : ("" : String).isEmpty = true := rfl
  refine ⟨?_, ?_, ?_⟩
  · intro s hs hne
    unfold extractSessionId
    rw [hs]
    simp [hne]
  · rintro (hh | hh) s hc hne
    · unfold extractSessionId
      rw [hh]
      unfold extractSessionId.sessionIdFromBody
      rw [hc]
      simp [hne]
    · unfold extractSessionId
      rw [hh]
      simp only [h0, Bool.not_true, Bool.false_eq_true, if_false]
      unfold extractSessionId.sessionIdFromBody
      rw [hc]
      simp [hne]
  · rintro (hh | hh) hc
    · unfold extractSessionId
      rw [hh]
      unfold extractSessionId.sessionIdFromBody
      rcases hc with hc | hc
      · rw [hc]
        exact hfp
      · rw [hc]
        simp only [h0, Bool.not_true, Bool.false_eq_true, if_false]
        exact hfp
    · unfold extractSessionId
      rw [hh]
      simp only [h0, Bool.not_true, Bool.false_eq_true, if_false]
      unfold extractSessionId.sessionIdFromBody
      rcases hc with hc | hc
      · rw [hc]
        exact hfp
      · rw [hc]
        simp only [h0, Bool.not_true, Bool.false_eq_true, if_false]
        exact hfp

/-- Headers for the C7 witness. -/
def c7headers : List (String × String) := [("x-session-id", "abc")]

/-- C7 witness: the non-empty header wins the priority chain. -/
theorem extractSessionId_priority_chain_witness :
    extractSessionId c7headers c7request = some "abc" :=
  (extractSessionId_priority_chain c7headers c7request).1 "abc" rfl rfl

end ClawRouter
